import Mathlib

/-!
Shallow embedding of the retry-aware job scheduler in
`scheduler/scheduler.go` (package `scheduler`).

Modelling conventions:
* `time.Time` values are modelled as `Int` instants (nanoseconds on a single
  absolute axis).  `UTC()` does not change the instant a `time.Time` denotes,
  so it is the identity here; `t.Before(u)` is `t < u`; `t.Add(d)` is `t + d`;
  `t.IsZero()` is `t = 0` (the zero instant stands for Go's zero `time.Time`).
* `time.Duration` is Go's `int64` nanosecond count.  Go multiplication of
  `int64` values wraps on overflow (two's complement); `int64wrap` applies
  that wrap explicitly where the source multiplies durations.
* Collaborators (`Repository`, `Dispatcher`, `Logger`) are ports.  Their
  presence in the configuration is a `Bool` (`nil`-ness of the Go interface
  value); their behaviour is passed to the cycle functions as explicit
  arguments, and the calls the worker makes to them are returned as an
  `Effect` trace.
* `context.Context` cancellation is modelled as `ctxErr : Nat → Bool`, giving
  the answer of the n-th `ctx.Err() != nil` check performed in a cycle.
* The opaque `Payload any` field is never inspected by the core; it is
  modelled as `Unit`.
-/

set_option autoImplicit false

namespace Scheduler

/-- Two's-complement wrap of a mathematical integer into the `int64` range
`[-2^63, 2^63)`, as performed by Go's `int64`/`time.Duration` arithmetic. -/
def int64wrap (x : Int) : Int :=
  (x + 2 ^ 63) % 2 ^ 64 - 2 ^ 63

/-- `Job` from the source: a scheduled unit of work plus backoff metadata. -/
structure Job where
  id : String
  scheduledFor : Option Int
  retryCount : Int
  lastAttemptedAt : Int
  payload : Unit := ()
  deriving DecidableEq, Repr

/-- `DispatchResult` from the source: dispatcher-supplied metadata. -/
structure DispatchResult where
  status : String
  providerMessageID : String
  deriving DecidableEq, Repr

/-- `AttemptUpdate` from the source: the mutation persisted after an attempt. -/
structure AttemptUpdate where
  status : String
  providerMessageID : String
  retryCount : Int
  lastAttemptedAt : Int
  deriving DecidableEq, Repr

/-- The worker's clock: either the default `systemClock{}` installed by
`NewWorker` when `cfg.Clock == nil`, or an injected deterministic clock
(modelled by the instant its `Now()` returns). -/
inductive ClockModel where
  | system
  | injected (now : Int)
  deriving DecidableEq, Repr

/-- `Config` from the source.  Interface-valued fields (`Repository`,
`Dispatcher`, `Logger`) are modelled by whether they are non-`nil`;
`Clock` keeps its optionality. -/
structure Config where
  hasRepository : Bool
  hasDispatcher : Bool
  hasLogger : Bool
  interval : Int
  maxRetries : Int
  successStatus : String
  failureStatus : String
  clock : Option ClockModel
  deriving DecidableEq, Repr

/-- `Worker` from the source.  The collaborator fields are guaranteed
non-`nil` by construction and their behaviour is passed to the cycle
functions explicitly, so only the scalar configuration is carried. -/
structure Worker where
  interval : Int
  maxRetries : Int
  successStatus : String
  failureStatus : String
  clock : ClockModel
  deriving DecidableEq, Repr

/-- The four distinct construction failures of `NewWorker`, one per
`fmt.Errorf` message wrapping `errInvalidConfig`. -/
inductive ConfigError where
  | collaboratorsRequired
  | intervalMustBePositive
  | maxRetriesMustBePositive
  | statusesRequired
  deriving DecidableEq, Repr

/-- The message each construction failure wraps around
`"invalid scheduler config"` in the source. -/
def ConfigError.message : ConfigError → String
  | .collaboratorsRequired => "repository, dispatcher, and logger are required"
  | .intervalMustBePositive => "interval must be positive"
  | .maxRetriesMustBePositive => "max retries must be positive"
  | .statusesRequired => "success and failure statuses are required"

/-- `const maxBackoffShift = 20` from the source. -/
def maxBackoffShift : Int := 20

/-- `NewWorker` from the source: validates the configuration in order and
returns a ready worker, defaulting the clock to `systemClock{}`. -/
def NewWorker (cfg : Config) : Except ConfigError Worker :=
  if !cfg.hasRepository || !cfg.hasDispatcher || !cfg.hasLogger then
    .error .collaboratorsRequired
  else if cfg.interval ≤ 0 then
    .error .intervalMustBePositive
  else if cfg.maxRetries ≤ 0 then
    .error .maxRetriesMustBePositive
  else if cfg.successStatus == "" || cfg.failureStatus == "" then
    .error .statusesRequired
  else
    .ok
      { interval := cfg.interval
        maxRetries := cfg.maxRetries
        successStatus := cfg.successStatus
        failureStatus := cfg.failureStatus
        clock := cfg.clock.getD .system }

/-- The shift computed by `shouldAttempt`:
`shift := job.RetryCount; if shift > maxBackoffShift { shift = maxBackoffShift }`. -/
def backoffShift (retryCount : Int) : Int :=
  if retryCount > maxBackoffShift then maxBackoffShift else retryCount

/-- The backoff duration computed by `shouldAttempt`:
`worker.interval * time.Duration(1<<uint(shift))`, an `int64` (wrapping)
product.  Only reached with `retryCount ≥ 1`, so `toNat` is exact there. -/
def backoffDuration (interval retryCount : Int) : Int :=
  int64wrap (interval * 2 ^ (backoffShift retryCount).toNat)

/-- `shouldAttempt` from the source: the eligibility check. -/
def shouldAttempt (worker : Worker) (job : Job) (now : Int) : Bool :=
  if (match job.scheduledFor with
      | some t => decide (now < t)
      | none => false) then
    false
  else if job.retryCount ≤ 0 || job.lastAttemptedAt == 0 then
    true
  else
    let backoff := backoffDuration worker.interval job.retryCount
    let nextAttempt := job.lastAttemptedAt + backoff
    !decide (now < nextAttempt)

/-- The status-resolution steps of `executeJob`: start from the dispatcher's
`result.Status`, fall back to the configured failure/success status when it
is empty, and finally to the failure status when still empty. -/
def resolveStatus (dispatchStatus : String) (dispatchErrored : Bool)
    (successStatus failureStatus : String) : String :=
  let status := dispatchStatus
  let status :=
    if status == "" then
      if dispatchErrored then failureStatus else successStatus
    else status
  if status == "" then failureStatus else status

/-- One observable call the worker makes on its collaborators. -/
inductive Effect where
  | pendingCall (maxRetries : Int) (now : Int)
  | dispatchCall (job : Job)
  | persistCall (job : Job) (update : AttemptUpdate)
  deriving DecidableEq, Repr

/-- The persisted updates contained in an effect trace. -/
def persistedUpdates (effects : List Effect) : List AttemptUpdate :=
  effects.filterMap fun e =>
    match e with
    | .persistCall _ u => some u
    | _ => none

/-- Whether an effect is a `Dispatcher.Attempt` or
`Repository.ApplyAttemptResult` call. -/
def isDispatchOrPersist : Effect → Bool
  | .pendingCall _ _ => false
  | .dispatchCall _ => true
  | .persistCall _ _ => true

/-- `executeJob` from the source, as the trace of collaborator calls it
performs.  `dispatch` is the behaviour of `Dispatcher.Attempt`, returning
the `(DispatchResult, error)` pair; `now` is the cycle's time snapshot
(`attemptedAt := now.UTC()` is the same instant). -/
def executeJob (worker : Worker) (job : Job) (now : Int)
    (dispatch : Job → DispatchResult × Option String) : List Effect :=
  let attemptedAt := now
  let outcome := dispatch job
  let result := outcome.1
  let dispatchErr := outcome.2
  let status :=
    resolveStatus result.status dispatchErr.isSome
      worker.successStatus worker.failureStatus
  let update : AttemptUpdate :=
    { status := status
      providerMessageID := result.providerMessageID
      retryCount := job.retryCount + 1
      lastAttemptedAt := attemptedAt }
  [.dispatchCall job, .persistCall job update]

/-- The per-job loop of `runCycle`: before each job re-check cancellation
(`ctxErr k` is the answer of the k-th `ctx.Err()` check of the cycle), skip
ineligible jobs, execute eligible ones. -/
def processJobs (worker : Worker) (ctxErr : Nat → Bool) (now : Int)
    (dispatch : Job → DispatchResult × Option String) :
    List Job → Nat → List Effect
  | [], _ => []
  | job :: rest, k =>
    if ctxErr k then []
    else if !shouldAttempt worker job now then
      processJobs worker ctxErr now dispatch rest (k + 1)
    else
      executeJob worker job now dispatch ++
        processJobs worker ctxErr now dispatch rest (k + 1)

/-- `runCycle` from the source, as the trace of collaborator calls.
`pending` is the answer of `Repository.PendingJobs` for this cycle, `now`
the instant `worker.clock.Now()` returns. -/
def runCycle (worker : Worker) (ctxErr : Nat → Bool) (now : Int)
    (pending : Except String (List Job))
    (dispatch : Job → DispatchResult × Option String) : List Effect :=
  if ctxErr 0 then []
  else
    .pendingCall worker.maxRetries now ::
      match pending with
      | .error _ => []
      | .ok jobs => processJobs worker ctxErr now dispatch jobs 1

/-! ### Concrete instances used by witnesses and counterexamples -/

/-- A worker whose interval (2^43 ns, about 2.4 hours) makes
`interval * 2^20` overflow `int64`. -/
def wOverflow : Worker :=
  { interval := 2 ^ 43
    maxRetries := 5
    successStatus := "ok"
    failureStatus := "fail"
    clock := .system }

/-- A job at retry 19 last attempted at instant 1. -/
def jobOverflow19 : Job :=
  { id := "j", scheduledFor := none, retryCount := 19, lastAttemptedAt := 1 }

/-- The same job at retry 20. -/
def jobOverflow20 : Job :=
  { id := "j", scheduledFor := none, retryCount := 20, lastAttemptedAt := 1 }

/-- A small worker with interval 10 ns (no overflow anywhere). -/
def wTen : Worker :=
  { interval := 10
    maxRetries := 3
    successStatus := "sent"
    failureStatus := "failed"
    clock := .injected 0 }

/-- A job at retry 2 last attempted at instant 100. -/
def jobBackoff : Job :=
  { id := "b", scheduledFor := none, retryCount := 2, lastAttemptedAt := 100 }

/-- A job carrying a negative retry count, outside the spec's data model. -/
def jobNegative : Job :=
  { id := "n", scheduledFor := none, retryCount := -1, lastAttemptedAt := 50 }

/-- A fully valid configuration with no clock supplied. -/
def cfgGood : Config :=
  { hasRepository := true
    hasDispatcher := true
    hasLogger := true
    interval := 1000
    maxRetries := 3
    successStatus := "sent"
    failureStatus := "failed"
    clock := none }

/-- The worker `NewWorker cfgGood` constructs. -/
def workerGood : Worker :=
  { interval := 1000
    maxRetries := 3
    successStatus := "sent"
    failureStatus := "failed"
    clock := .system }

/-- `cfgGood` with the repository missing. -/
def cfgMissingRepo : Config :=
  { cfgGood with hasRepository := false }

/-- A dispatcher behaviour returning an empty result and no error. -/
def dispatchNone : Job → DispatchResult × Option String :=
  fun _ => ({ status := "", providerMessageID := "" }, none)

/-! ### Helper lemmas -/

lemma int64wrap_eq_self (x : Int) (h1 : -(2 ^ 63) ≤ x) (h2 : x ≤ 2 ^ 63 - 1) :
    int64wrap x = x := by
  unfold int64wrap
  omega

lemma backoffShift_eq_min (rc : Int) : backoffShift rc = min rc maxBackoffShift := by
  unfold backoffShift maxBackoffShift
  split <;> omega

lemma backoffShift_of_ge (rc : Int) (h : 20 ≤ rc) : backoffShift rc = 20 := by
  unfold backoffShift maxBackoffShift
  split <;> omega

lemma backoffDuration_in_range (interval rc : Int) (hpos : 0 < interval)
    (hfit : interval * 2 ^ (min rc maxBackoffShift).toNat ≤ 2 ^ 63 - 1) :
    backoffDuration interval rc = interval * 2 ^ (min rc maxBackoffShift).toNat := by
  unfold backoffDuration
  rw [backoffShift_eq_min]
  refine int64wrap_eq_self _ ?_ hfit
  have hp : (0 : Int) < 2 ^ (min rc maxBackoffShift).toNat := by positivity
  nlinarith

lemma shouldAttempt_true_iff (w : Worker) (job : Job) (now : Int) :
    shouldAttempt w job now = true ↔
      ((∀ t, job.scheduledFor = some t → t ≤ now) ∧
       (job.retryCount ≤ 0 ∨ job.lastAttemptedAt = 0 ∨
        job.lastAttemptedAt + backoffDuration w.interval job.retryCount ≤ now)) := by
  unfold shouldAttempt
  cases hsf : job.scheduledFor with
  | none => simp; omega
  | some t =>
    by_cases hlt : now < t
    · simp [hlt]
    · simp [hlt]
      omega

/-- C2: executeJob resolves exactly one final status with precedence: a
non-empty dispatcher status verbatim (error or not); else the failure status
on error; else the success status; else (still empty) the failure status. -/
theorem resolveStatus_precedence (ds : String) (errored : Bool) (succ fail : String) :
    (ds ≠ "" → resolveStatus ds errored succ fail = ds) ∧
    (ds = "" → errored = true → resolveStatus ds errored succ fail = fail) ∧
    (ds = "" → errored = false → succ ≠ "" → resolveStatus ds errored succ fail = succ) ∧
    (ds = "" → errored = false → succ = "" → resolveStatus ds errored succ fail = fail) := by
  refine ⟨fun h => ?_, fun h he => ?_, fun h he hs => ?_, fun h he hs => ?_⟩ <;>
    simp_all [resolveStatus]

/-- C2 witness: the four precedence cases at concrete statuses. -/
theorem resolveStatus_precedence_witness :
    resolveStatus "custom" true "sent" "failed" = "custom" ∧
    resolveStatus "" true "sent" "failed" = "failed" ∧
    resolveStatus "" false "sent" "failed" = "sent" ∧
    resolveStatus "" false "" "failed" = "failed" :=
  ⟨(resolveStatus_precedence "custom" true "sent" "failed").1 (by decide),
   (resolveStatus_precedence "" true "sent" "failed").2.1 rfl rfl,
   (resolveStatus_precedence "" false "sent" "failed").2.2.1 rfl rfl (by decide),
   (resolveStatus_precedence "" false "" "failed").2.2.2 rfl rfl rfl⟩

/-- C3: executeJob persists exactly one AttemptUpdate, with RetryCount one
more than the job's, the dispatcher's ProviderMessageID (also when dispatch
errored), and the pre-dispatch UTC time snapshot as LastAttemptedAt. -/
theorem executeJob_attempt_update (w : Worker) (job : Job) (now : Int)
    (dispatch : Job → DispatchResult × Option String) :
    ∃ u : AttemptUpdate,
      persistedUpdates (executeJob w job now dispatch) = [u] ∧
      u.retryCount = job.retryCount + 1 ∧
      u.providerMessageID = (dispatch job).1.providerMessageID ∧
      u.lastAttemptedAt = now :=
  ⟨_, rfl, rfl, rfl, rfl⟩

/-- C5: a cycle cancelled at entry makes no collaborator call at all, and a
cycle whose PendingJobs fetch fails makes no dispatch or persistence call. -/
theorem runCycle_no_partial_processing (w : Worker) (ctxErr : Nat → Bool) (now : Int)
    (pending : Except String (List Job)) (dispatch : Job → DispatchResult × Option String) :
    (ctxErr 0 = true → runCycle w ctxErr now pending dispatch = []) ∧
    (ctxErr 0 = false → ∀ e, pending = Except.error e →
      runCycle w ctxErr now pending dispatch = [Effect.pendingCall w.maxRetries now]) := by
  constructor
  · intro h
    simp [runCycle, h]
  · intro h e he
    simp [runCycle, h, he]

/-- C5 witness: a cancelled cycle and a fetch-failing cycle at concrete inputs. -/
theorem runCycle_no_partial_processing_witness :
    runCycle workerGood (fun _ => true) 0 (Except.error "boom") dispatchNone = [] ∧
    runCycle workerGood (fun _ => false) 0 (Except.error "boom") dispatchNone =
      [Effect.pendingCall workerGood.maxRetries 0] :=
  ⟨(runCycle_no_partial_processing workerGood (fun _ => true) 0
      (Except.error "boom") dispatchNone).1 rfl,
   (runCycle_no_partial_processing workerGood (fun _ => false) 0
      (Except.error "boom") dispatchNone).2 rfl "boom" rfl⟩

/-- C6 counterexample: at Interval = 2^43 and RetryCount = 20 the int64
product wraps to -2^63, so the computed backoff is not the mathematical
Interval × 2^min(RetryCount, 20). -/
theorem backoffDuration_overflow_cex :
    (0 : Int) < 2 ^ 43 ∧
    backoffDuration (2 ^ 43) 20 = -(2 ^ 63) ∧
    (2 ^ 43 : Int) * 2 ^ (min (20 : Int) maxBackoffShift).toNat = 2 ^ 63 ∧
    backoffDuration (2 ^ 43) 20 ≠ (2 ^ 43 : Int) * 2 ^ (min (20 : Int) maxBackoffShift).toNat := by
  decide

/-- C6 amended: for strictly positive Interval, whenever the mathematical
product Interval × 2^min(RetryCount, 20) is at most 2^63 - 1 the int64
computation does not overflow and equals that product. -/
theorem backoffDuration_no_overflow (interval rc : Int) (hpos : 0 < interval)
    (hfit : interval * 2 ^ (min rc maxBackoffShift).toNat ≤ 2 ^ 63 - 1) :
    backoffDuration interval rc = interval * 2 ^ (min rc maxBackoffShift).toNat :=
  backoffDuration_in_range interval rc hpos hfit

/-- C6 witness: Interval 5, RetryCount 3 gives backoff 40. -/
theorem backoffDuration_no_overflow_witness : backoffDuration 5 3 = 40 :=
  (backoffDuration_no_overflow 5 3 (by decide) (by decide)).trans (by decide)


lemma resolveStatus_ne_empty (ds : String) (errored : Bool) (succ fail : String)
    (hs : succ ≠ "") (hf : fail ≠ "") : resolveStatus ds errored succ fail ≠ "" := by
  unfold resolveStatus
  by_cases hds : ds = "" <;> cases errored <;> simp [hds, hs, hf]

lemma newWorker_ok_statuses (cfg : Config) (w : Worker) (hw : NewWorker cfg = Except.ok w) :
    w.successStatus ≠ "" ∧ w.failureStatus ≠ "" := by
  unfold NewWorker at hw
  split_ifs at hw with h1 h2 h3 h4
  simp only [Except.ok.injEq] at hw
  subst hw
  simp only [Bool.or_eq_true, beq_iff_eq, not_or] at h4
  exact ⟨h4.1, h4.2⟩

lemma newWorker_ok_clock (cfg : Config) (w : Worker) (hw : NewWorker cfg = Except.ok w) :
    w.clock = cfg.clock.getD ClockModel.system := by
  unfold NewWorker at hw
  split_ifs at hw
  simp only [Except.ok.injEq] at hw
  subst hw
  rfl

lemma newWorker_ok_iff (cfg : Config) :
    (∃ w, NewWorker cfg = Except.ok w) ↔
      (cfg.hasRepository = true ∧ cfg.hasDispatcher = true ∧ cfg.hasLogger = true ∧
       0 < cfg.interval ∧ 0 < cfg.maxRetries ∧
       cfg.successStatus ≠ "" ∧ cfg.failureStatus ≠ "") := by
  constructor
  · rintro ⟨w, hw⟩
    unfold NewWorker at hw
    split_ifs at hw with h1 h2 h3 h4
    simp only [Bool.or_eq_true, Bool.not_eq_true', not_or, Bool.not_eq_false] at h1
    simp only [Bool.or_eq_true, beq_iff_eq, not_or] at h4
    obtain ⟨⟨hra, hda⟩, hla⟩ := h1
    exact ⟨hra, hda, hla, by omega, by omega, h4.1, h4.2⟩
  · rintro ⟨hr, hd, hl, hi, hm, hs, hf⟩
    refine ⟨{ interval := cfg.interval, maxRetries := cfg.maxRetries,
              successStatus := cfg.successStatus, failureStatus := cfg.failureStatus,
              clock := cfg.clock.getD ClockModel.system }, ?_⟩
    unfold NewWorker
    simp [hr, hd, hl, hs, hf, not_le.mpr hi, not_le.mpr hm]



/-- C4: NewWorker fails exactly when a collaborator is missing, the interval
or max-retries is not strictly positive, or a status string is empty; each
violated precondition yields its own named failure (with pairwise distinct
messages); and an absent Clock defaults to the system clock. -/
theorem newWorker_validation (cfg : Config) :
    ((∃ e, NewWorker cfg = Except.error e) ↔
      (cfg.hasRepository = false ∨ cfg.hasDispatcher = false ∨ cfg.hasLogger = false ∨
       cfg.interval ≤ 0 ∨ cfg.maxRetries ≤ 0 ∨
       cfg.successStatus = "" ∨ cfg.failureStatus = "")) ∧
    ((cfg.hasRepository = false ∨ cfg.hasDispatcher = false ∨ cfg.hasLogger = false) →
      NewWorker cfg = Except.error ConfigError.collaboratorsRequired) ∧
    (cfg.hasRepository = true → cfg.hasDispatcher = true → cfg.hasLogger = true →
      cfg.interval ≤ 0 → NewWorker cfg = Except.error ConfigError.intervalMustBePositive) ∧
    (cfg.hasRepository = true → cfg.hasDispatcher = true → cfg.hasLogger = true →
      0 < cfg.interval → cfg.maxRetries ≤ 0 →
      NewWorker cfg = Except.error ConfigError.maxRetriesMustBePositive) ∧
    (cfg.hasRepository = true → cfg.hasDispatcher = true → cfg.hasLogger = true →
      0 < cfg.interval → 0 < cfg.maxRetries →
      (cfg.successStatus = "" ∨ cfg.failureStatus = "") →
      NewWorker cfg = Except.error ConfigError.statusesRequired) ∧
    ([ConfigError.collaboratorsRequired.message, ConfigError.intervalMustBePositive.message,
      ConfigError.maxRetriesMustBePositive.message,
      ConfigError.statusesRequired.message].Pairwise (· ≠ ·)) ∧
    (cfg.clock = none → ∀ w, NewWorker cfg = Except.ok w → w.clock = ClockModel.system) := by
  refine ⟨?_, ?_, ?_, ?_, ?_, by decide, ?_⟩
  · constructor
    · rintro ⟨e, he⟩
      by_contra hno
      push_neg at hno
      obtain ⟨hr, hd, hl, hi, hm, hs, hf⟩ := hno
      obtain ⟨w, hw⟩ := (newWorker_ok_iff cfg).mpr
        ⟨by simpa using hr, by simpa using hd, by simpa using hl, by omega, by omega, hs, hf⟩
      rw [hw] at he
      cases he
    · intro hdisj
      rcases hok : NewWorker cfg with e | w
      · exact ⟨e, rfl⟩
      · obtain ⟨hr, hd, hl, hi, hm, hs, hf⟩ := (newWorker_ok_iff cfg).mp ⟨w, hok⟩
        rcases hdisj with h | h | h | h | h | h | h <;> simp_all <;> omega
  · intro h
    unfold NewWorker
    have hcond : (!cfg.hasRepository || !cfg.hasDispatcher || !cfg.hasLogger) = true := by
      rcases h with h | h | h <;> simp [h]
    rw [if_pos hcond]
  · intro hr hd hl hi
    unfold NewWorker
    rw [if_neg (by simp [hr, hd, hl]), if_pos hi]
  · intro hr hd hl hi hm
    unfold NewWorker
    rw [if_neg (by simp [hr, hd, hl]), if_neg (not_le.mpr hi), if_pos hm]
  · intro hr hd hl hi hm hsf
    unfold NewWorker
    rw [if_neg (by simp [hr, hd, hl]), if_neg (not_le.mpr hi), if_neg (not_le.mpr hm),
      if_pos (by rcases hsf with h | h <;> simp [h])]
  · intro hc w hw
    rw [newWorker_ok_clock cfg w hw, hc]
    rfl

/-- C4 witness: a configuration missing its repository fails with the
collaborator error, and a valid clockless configuration yields the system
clock. -/
theorem newWorker_validation_witness :
    NewWorker cfgMissingRepo = Except.error ConfigError.collaboratorsRequired ∧
    workerGood.clock = ClockModel.system :=
  ⟨(newWorker_validation cfgMissingRepo).2.1 (Or.inl rfl),
   (newWorker_validation cfgGood).2.2.2.2.2.2 rfl workerGood rfl⟩

/-- C9: for every successfully constructed Worker, the status executeJob
resolves is never empty, whatever the dispatcher reports. -/
theorem resolved_status_nonempty (cfg : Config) (w : Worker)
    (hw : NewWorker cfg = Except.ok w) (ds : String) (errored : Bool) :
    resolveStatus ds errored w.successStatus w.failureStatus ≠ "" := by
  obtain ⟨hs, hf⟩ := newWorker_ok_statuses cfg w hw
  exact resolveStatus_ne_empty ds errored w.successStatus w.failureStatus hs hf

/-- C9 witness: the empty dispatcher status with no error still resolves to
a non-empty status on the worker built from cfgGood. -/
theorem resolved_status_nonempty_witness :
    resolveStatus "" false workerGood.successStatus workerGood.failureStatus ≠ "" :=
  resolved_status_nonempty cfgGood workerGood rfl "" false



/-- C1 counterexample: with Interval 2^43 the int64 backoff product wraps,
so shouldAttempt reports a job eligible (true) although now is strictly
earlier than LastAttemptedAt plus the mathematical Interval × 2^min(RetryCount, 20). -/
theorem shouldAttempt_eligibility_cex :
    0 < wOverflow.interval ∧
    jobOverflow20.scheduledFor = none ∧
    shouldAttempt wOverflow jobOverflow20 1 = true ∧
    ¬(jobOverflow20.lastAttemptedAt +
        wOverflow.interval * 2 ^ (min jobOverflow20.retryCount maxBackoffShift).toNat ≤ 1) := by
  decide

/-- C1 amended: for jobs in the data-model domain (non-negative RetryCount)
and a positive Interval whose product Interval × 2^min(RetryCount, 20) stays
within int64, shouldAttempt is false when ScheduledFor is in the future,
true on a first attempt (RetryCount 0 or LastAttemptedAt unset), and
otherwise true exactly when now has reached LastAttemptedAt plus the
backoff. -/
theorem shouldAttempt_eligibility_spec (w : Worker) (job : Job) (now : Int)
    (hpos : 0 < w.interval) (hrc : 0 ≤ job.retryCount)
    (hfit : w.interval * 2 ^ (min job.retryCount maxBackoffShift).toNat ≤ 2 ^ 63 - 1) :
    ((∃ t, job.scheduledFor = some t ∧ now < t) → shouldAttempt w job now = false) ∧
    (¬(∃ t, job.scheduledFor = some t ∧ now < t) →
      (job.retryCount = 0 ∨ job.lastAttemptedAt = 0) → shouldAttempt w job now = true) ∧
    (¬(∃ t, job.scheduledFor = some t ∧ now < t) →
      job.retryCount ≠ 0 → job.lastAttemptedAt ≠ 0 →
      (shouldAttempt w job now = true ↔
        job.lastAttemptedAt +
          w.interval * 2 ^ (min job.retryCount maxBackoffShift).toNat ≤ now)) := by
  have hbd := backoffDuration_in_range w.interval job.retryCount hpos hfit
  refine ⟨?_, ?_, ?_⟩
  · rintro ⟨t, ht, hlt⟩
    cases hb : shouldAttempt w job now with
    | false => rfl
    | true =>
      exact absurd (((shouldAttempt_true_iff w job now).mp hb).1 t ht) (not_le.mpr hlt)
  · intro hnb hfirst
    refine (shouldAttempt_true_iff w job now).mpr ⟨?_, ?_⟩
    · intro t ht
      by_contra hc
      exact hnb ⟨t, ht, not_le.mp hc⟩
    · rcases hfirst with h | h
      · exact Or.inl (by omega)
      · exact Or.inr (Or.inl h)
  · intro hnb hrcne hlastne
    rw [shouldAttempt_true_iff]
    constructor
    · rintro ⟨-, hd⟩
      rcases hd with h | h | h
      · omega
      · exact absurd h hlastne
      · rwa [hbd] at h
    · intro hle
      refine ⟨?_, Or.inr (Or.inr ?_)⟩
      · intro t ht
        by_contra hc
        exact hnb ⟨t, ht, not_le.mp hc⟩
      · rwa [hbd]

/-- C1 witness: the backoff clause at Interval 10, RetryCount 2,
LastAttemptedAt 100, now 140. -/
theorem shouldAttempt_eligibility_spec_witness :
    shouldAttempt wTen jobBackoff 140 = true ↔
      jobBackoff.lastAttemptedAt +
        wTen.interval * 2 ^ (min jobBackoff.retryCount maxBackoffShift).toNat ≤ 140 :=
  (shouldAttempt_eligibility_spec wTen jobBackoff 140 (by decide) (by decide)
      (by decide)).2.2 (by simp [jobBackoff]) (by decide) (by decide)

/-- C7: retry counts at or above the cap of 20 share the backoff computed at
20, so shouldAttempt gives the same verdict for two jobs differing only in
retry counts that are both at least 20. -/
theorem shouldAttempt_plateau (w : Worker) (now : Int) (id : String) (sf : Option Int)
    (last : Int) (rc1 rc2 : Int) (h1 : 20 ≤ rc1) (h2 : 20 ≤ rc2) :
    backoffDuration w.interval rc1 = backoffDuration w.interval 20 ∧
    shouldAttempt w ⟨id, sf, rc1, last, ()⟩ now =
      shouldAttempt w ⟨id, sf, rc2, last, ()⟩ now := by
  have hb1 : backoffDuration w.interval rc1 = backoffDuration w.interval 20 := by
    unfold backoffDuration
    rw [backoffShift_of_ge rc1 h1, backoffShift_of_ge 20 (le_refl 20)]
  have hb2 : backoffDuration w.interval rc2 = backoffDuration w.interval 20 := by
    unfold backoffDuration
    rw [backoffShift_of_ge rc2 h2, backoffShift_of_ge 20 (le_refl 20)]
  refine ⟨hb1, ?_⟩
  rw [Bool.eq_iff_iff, shouldAttempt_true_iff, shouldAttempt_true_iff]
  simp only [hb1, hb2]
  constructor
  · rintro ⟨ha, hd⟩
    refine ⟨ha, ?_⟩
    rcases hd with h | h | h
    · omega
    · exact Or.inr (Or.inl h)
    · exact Or.inr (Or.inr h)
  · rintro ⟨ha, hd⟩
    refine ⟨ha, ?_⟩
    rcases hd with h | h | h
    · omega
    · exact Or.inr (Or.inl h)
    · exact Or.inr (Or.inr h)

/-- C7 witness: retry counts 25 and 500 agree with each other and with the
cap, at Interval 10. -/
theorem shouldAttempt_plateau_witness :
    backoffDuration wTen.interval 25 = backoffDuration wTen.interval 20 ∧
    shouldAttempt wTen ⟨"p", none, 25, 1, ()⟩ 0 =
      shouldAttempt wTen ⟨"p", none, 500, 1, ()⟩ 0 :=
  shouldAttempt_plateau wTen 0 "p" none 1 25 500 (by decide) (by decide)



/-- C8 counterexample: with Interval 2^43 the wrapped backoff at RetryCount
20 is smaller than at 19, and raising the retry count from 19 to 20 flips
the verdict from ineligible to eligible — the required wait shrinks. -/
theorem shouldAttempt_monotone_cex :
    0 < wOverflow.interval ∧
    shouldAttempt wOverflow jobOverflow19 1 = false ∧
    shouldAttempt wOverflow jobOverflow20 1 = true ∧
    backoffDuration wOverflow.interval 20 < backoffDuration wOverflow.interval 19 := by
  decide

/-- C8 amended: when additionally Interval × 2^20 stays within int64,
eligibility of a retried job (RetryCount ≥ 1, LastAttemptedAt set) requires
now ≥ LastAttemptedAt + Interval × 2^min(RetryCount, 20), and below the cap
each extra retry strictly increases the required backoff. -/
theorem shouldAttempt_backoff_monotone (w : Worker) (job : Job) (now : Int)
    (hpos : 0 < w.interval) (hfit : w.interval * 2 ^ 20 ≤ 2 ^ 63 - 1)
    (hrc : 1 ≤ job.retryCount) (hlast : job.lastAttemptedAt ≠ 0) :
    (shouldAttempt w job now = true →
      job.lastAttemptedAt +
        w.interval * 2 ^ (min job.retryCount maxBackoffShift).toNat ≤ now) ∧
    (job.retryCount < 20 →
      backoffDuration w.interval job.retryCount <
        backoffDuration w.interval (job.retryCount + 1)) := by
  have hfit1 : ∀ rc : Int,
      w.interval * 2 ^ (min rc maxBackoffShift).toNat ≤ 2 ^ 63 - 1 := by
    intro rc
    refine le_trans ?_ hfit
    have hexp : (2 : Int) ^ (min rc maxBackoffShift).toNat ≤ 2 ^ 20 := by
      refine pow_le_pow_right₀ (by norm_num) ?_
      unfold maxBackoffShift
      omega
    nlinarith
  constructor
  · intro h
    obtain ⟨-, hd⟩ := (shouldAttempt_true_iff w job now).mp h
    rcases hd with h | h | h
    · omega
    · exact absurd h hlast
    · rwa [backoffDuration_in_range w.interval job.retryCount hpos (hfit1 _)] at h
  · intro hlt
    rw [backoffDuration_in_range w.interval job.retryCount hpos (hfit1 _),
      backoffDuration_in_range w.interval (job.retryCount + 1) hpos (hfit1 _)]
    have hexp : (2 : Int) ^ (min job.retryCount maxBackoffShift).toNat <
        2 ^ (min (job.retryCount + 1) maxBackoffShift).toNat := by
      refine pow_lt_pow_right₀ (by norm_num) ?_
      unfold maxBackoffShift
      omega
    exact mul_lt_mul_of_pos_left hexp hpos

/-- C8 witness: at Interval 10 the retried job (RetryCount 2, last attempt
100) is eligible at 140 exactly at the required wait, and the backoff at
retry 3 strictly exceeds the one at retry 2. -/
theorem shouldAttempt_backoff_monotone_witness :
    jobBackoff.lastAttemptedAt +
      wTen.interval * 2 ^ (min jobBackoff.retryCount maxBackoffShift).toNat ≤ 140 ∧
    backoffDuration wTen.interval jobBackoff.retryCount <
      backoffDuration wTen.interval (jobBackoff.retryCount + 1) :=
  ⟨(shouldAttempt_backoff_monotone wTen jobBackoff 140 (by decide) (by decide)
      (by decide) (by decide)).1 (by decide),
   (shouldAttempt_backoff_monotone wTen jobBackoff 140 (by decide) (by decide)
      (by decide) (by decide)).2 (by decide)⟩

/-- C10: a job with a strictly negative RetryCount is treated exactly like a
first attempt — eligible whenever ScheduledFor is absent or not in the
future, with no backoff — and the persisted update still carries
RetryCount + 1, which can be zero or negative. -/
theorem negative_retry_first_attempt (w : Worker) (job : Job) (now : Int)
    (dispatch : Job → DispatchResult × Option String) (hneg : job.retryCount < 0) :
    (shouldAttempt w job now =
      match job.scheduledFor with
      | some t => decide (t ≤ now)
      | none => true) ∧
    ∃ u : AttemptUpdate,
      persistedUpdates (executeJob w job now dispatch) = [u] ∧
      u.retryCount = job.retryCount + 1 := by
  refine ⟨?_, ⟨_, rfl, rfl⟩⟩
  unfold shouldAttempt
  cases hsf : job.scheduledFor with
  | none =>
    simp
    omega
  | some t =>
    by_cases hlt : now < t
    · simp [hlt, not_le.mpr hlt]
    · simp [hlt, not_lt.mp hlt]
      omega

/-- C10 witness: a job with RetryCount -1 and a prior attempt time is
eligible immediately, and its persisted update carries RetryCount 0. -/
theorem negative_retry_first_attempt_witness :
    shouldAttempt wTen jobNegative 0 = true ∧
    jobNegative.retryCount + 1 = 0 ∧
    ∃ u : AttemptUpdate,
      persistedUpdates (executeJob wTen jobNegative 0 dispatchNone) = [u] ∧
      u.retryCount = jobNegative.retryCount + 1 :=
  ⟨((negative_retry_first_attempt wTen jobNegative 0 dispatchNone (by decide)).1).trans
      (by decide),
   by decide,
   (negative_retry_first_attempt wTen jobNegative 0 dispatchNone (by decide)).2⟩

end Scheduler
